import Mathlib

/-
Verification of the homelab-observability trace-propagation and RabbitMQ
instrumentation layer.

The development shallowly embeds the Python sources
  src/opentelemetry/instrumentation/rabbitmq_instrumentation.py
  src/opentelemetry/instrumentation/python_instrumentation.py
  src/opentelemetry/pipelines/context-propagation.py
as executable Lean definitions.  Python dictionaries become association
lists with first-match lookup (a store replaces the visible binding),
Python exceptions become an explicit `Except` result, and the calls into
the external opentelemetry / pika libraries are modelled by their
documented behaviour, stated in a doc comment at each such definition.
-/

namespace HomelabObs

/-- A Python exception value, identified by its type name and message, so
that re-raising "the identical exception type/value" is expressible as
equality of `PyExc` values. -/
structure PyExc where
  ty : String
  msg : String
deriving DecidableEq, Repr

deriving instance DecidableEq for Except

/-- Association-list lookup with Python-dict semantics: the most recently
stored binding for a key is the first occurrence in the list. -/
def alookup (k : String) : List (String × α) → Option α
  | [] => none
  | (k', v) :: t => if k = k' then some v else alookup k t

/-- A Python-dict store `d[k] = v`: replaces the visible binding of `k`.
We model it as a cons, which together with first-match `alookup` gives
exactly the replace-on-store behaviour of a dict. -/
def dictSet (m : List (String × α)) (k : String) (v : α) : List (String × α) :=
  (k, v) :: m

theorem alookup_dictSet_self (m : List (String × α)) (k : String) (v : α) :
    alookup k (dictSet m k v) = some v := by
  simp [dictSet, alookup]

theorem alookup_dictSet_other (m : List (String × α)) (k k' : String) (v : α)
    (h : k' ≠ k) : alookup k' (dictSet m k v) = alookup k' m := by
  simp [dictSet, alookup, h]

/-! ## Retry / dead-letter topology (`create_dlq_policy`)

The Python function drives a `pika` channel.  We embed the channel as the
list of AMQP declarations the function issues, in order. -/

/-- An AMQP table value as used in queue-declaration argument tables. -/
inductive AmqpVal
  | str (s : String)
  | int (n : Nat)
deriving DecidableEq, Repr

/-- One declaration issued on a `pika` channel. -/
inductive ChannelCmd
  | exchange_declare (exchange exchangeType : String)
  | queue_declare (queue : String) (arguments : List (String × AmqpVal))
  | queue_bind (queue exchange routingKey : String)
deriving DecidableEq, Repr

/-- Embedding of `RabbitMQInstrumentation.create_dlq_policy` (source lines
206-241): the list of declarations it issues on the channel for
`(queue, max_retries)`.  Note the source never reads `max_retries`. -/
def create_dlq_policy (queue : String) (max_retries : Nat) : List ChannelCmd :=
  let dlx_exchange := queue ++ ".dlx"
  let dlq := queue ++ ".dlq"
  [ ChannelCmd.exchange_declare dlx_exchange "direct",
    ChannelCmd.queue_declare dlq
      [ ("x-message-ttl", AmqpVal.int 30000),
        ("x-dead-letter-exchange", AmqpVal.str ""),
        ("x-dead-letter-routing-key", AmqpVal.str queue) ],
    ChannelCmd.queue_bind dlq dlx_exchange queue,
    ChannelCmd.queue_declare queue
      [ ("x-dead-letter-exchange", AmqpVal.str dlx_exchange),
        ("x-dead-letter-routing-key", AmqpVal.str queue) ] ]

/-- The broker-side topology induced by a list of channel declarations:
per-queue argument tables and the `(queue, exchange, routing_key)`
bindings. -/
structure Topology where
  queueArgs : List (String × List (String × AmqpVal))
  bindings : List (String × String × String)
deriving DecidableEq, Repr

/-- Read off the topology declared by a command list. -/
def topologyOf (cmds : List ChannelCmd) : Topology :=
  cmds.foldl
    (fun t c =>
      match c with
      | ChannelCmd.exchange_declare _ _ => t
      | ChannelCmd.queue_declare q args => { t with queueArgs := dictSet t.queueArgs q args }
      | ChannelCmd.queue_bind q ex rk => { t with bindings := (q, ex, rk) :: t.bindings })
    { queueArgs := [], bindings := [] }

/-- Modelled from the spec: the external broker's dead-letter routing
(spec section 6, broker collaborator; section 4.5 state model) — when a
message in `source` is rejected by its consumer or its per-queue TTL
expires, the broker publishes it to the queue's `x-dead-letter-exchange`
with the queue's `x-dead-letter-routing-key`; the empty exchange name is
the default exchange, which routes directly to the queue named by the
routing key, and a direct exchange routes to the queues bound to it with
that routing key.  Returns the queue the message lands in, or `none`
when the message has no dead-letter route and is discarded. -/
def deadLetterTarget (t : Topology) (source : String) : Option String :=
  match alookup source t.queueArgs with
  | none => none
  | some args =>
    match alookup "x-dead-letter-exchange" args,
          alookup "x-dead-letter-routing-key" args with
    | some (AmqpVal.str ex), some (AmqpVal.str rk) =>
      if ex = "" then some rk
      else (t.bindings.find? (fun b => b.2.1 == ex && b.2.2 == rk)).map (·.1)
    | _, _ => none

/-- Where a failing message sits: in some queue, or discarded. -/
inductive MsgLoc
  | inQueue (q : String)
  | discarded
deriving DecidableEq, Repr

/-- Modelled from the spec: one dead-letter hop of the external broker
(consumer rejection, or TTL expiry in a delay queue). -/
def dlStep (t : Topology) : MsgLoc → MsgLoc
  | MsgLoc.inQueue q =>
    match deadLetterTarget t q with
    | some q' => MsgLoc.inQueue q'
    | none => MsgLoc.discarded
  | MsgLoc.discarded => MsgLoc.discarded

/-- One full failed-delivery cycle of the spec's state model
`READY -> (consumer fails) -> DELAYED -> (ttl expires) -> READY`:
a rejection hop followed by a TTL-expiry hop. -/
def retryCycle (t : Topology) (l : MsgLoc) : MsgLoc :=
  dlStep t (dlStep t l)

/-- Iterate `n` failed-delivery cycles. -/
def retryCycles (t : Topology) : Nat → MsgLoc → MsgLoc
  | 0, l => l
  | n + 1, l => retryCycles t n (retryCycle t l)

/-- C8: for every queue name `q` and every `max_retries` value,
`create_dlq_policy` declares a direct exchange `q.dlx`; declares a queue
`q.dlq` whose arguments set a message TTL and a dead-letter routing key
routing expired messages back to `q` (via the default exchange); binds
`q.dlq` to `q.dlx`; and declares the main queue `q` with dead-letter
exchange `q.dlx`. -/
theorem create_dlq_policy_topology (q : String) (m : Nat) :
    ChannelCmd.exchange_declare (q ++ ".dlx") "direct" ∈ create_dlq_policy q m ∧
    (∃ args, ChannelCmd.queue_declare (q ++ ".dlq") args ∈ create_dlq_policy q m ∧
      alookup "x-message-ttl" args = some (AmqpVal.int 30000) ∧
      alookup "x-dead-letter-exchange" args = some (AmqpVal.str "") ∧
      alookup "x-dead-letter-routing-key" args = some (AmqpVal.str q)) ∧
    ChannelCmd.queue_bind (q ++ ".dlq") (q ++ ".dlx") q ∈ create_dlq_policy q m ∧
    (∃ args, ChannelCmd.queue_declare q args ∈ create_dlq_policy q m ∧
      alookup "x-dead-letter-exchange" args = some (AmqpVal.str (q ++ ".dlx")) ∧
      alookup "x-dead-letter-routing-key" args = some (AmqpVal.str q)) := by
  refine ⟨List.Mem.head _,
    ⟨[ ("x-message-ttl", AmqpVal.int 30000),
       ("x-dead-letter-exchange", AmqpVal.str ""),
       ("x-dead-letter-routing-key", AmqpVal.str q) ],
      List.Mem.tail _ (List.Mem.head _), ?_, ?_, ?_⟩,
    List.Mem.tail _ (List.Mem.tail _ (List.Mem.head _)),
    ⟨[ ("x-dead-letter-exchange", AmqpVal.str (q ++ ".dlx")),
       ("x-dead-letter-routing-key", AmqpVal.str q) ],
      List.Mem.tail _ (List.Mem.tail _ (List.Mem.tail _ (List.Mem.head _))), ?_, ?_⟩⟩ <;>
    simp [alookup]

/-- C9: the topology declared by `create_dlq_policy "orders" 3` never
terminates a failing message.  The declarations are identical for every
`max_retries` value (the parameter is ignored), and after any number `n`
of failed-delivery cycles — in particular after more than
`max_retries = 3` — the message is back in the primary queue `"orders"`,
never routed to a terminal dead-letter queue. -/
theorem create_dlq_policy_unbounded_retry :
    (∀ m : Nat, create_dlq_policy "orders" m = create_dlq_policy "orders" 3) ∧
    (∀ n : Nat,
      retryCycles (topologyOf (create_dlq_policy "orders" 3)) n
        (MsgLoc.inQueue "orders") = MsgLoc.inQueue "orders") := by
  constructor
  · intro m
    rfl
  · intro n
    induction n with
    | zero => rfl
    | succ k ih =>
      have hcycle : retryCycle (topologyOf (create_dlq_policy "orders" 3))
          (MsgLoc.inQueue "orders") = MsgLoc.inQueue "orders" := by decide
      simpa [retryCycles, hcycle] using ih

/-! ## Context codec

Embedding of the W3C propagators the sources delegate to
(`TraceContextTextMapPropagator`, `W3CBaggagePropagator`, and the global
composite used by `opentelemetry.propagate.inject` / `extract`), per the
carrier format fixed in spec section 6:
`traceparent = version-trace_id-span_id-flags` and
`baggage = comma-separated key=value pairs`. -/

/-- The minimal trace context triple (spec section 3, TraceContext). -/
structure SpanContext where
  traceId : Nat
  spanId : Nat
  sampled : Bool
deriving DecidableEq, Repr

/-- An OpenTelemetry span context is valid when both ids are nonzero. -/
def SpanContext.isValid (sc : SpanContext) : Bool :=
  sc.traceId != 0 && sc.spanId != 0

/-- The lowercase hexadecimal digit for `n % 16`. -/
def hexDigitChar (n : Nat) : Char :=
  if n < 10 then Char.ofNat (48 + n % 16) else Char.ofNat (87 + n % 16)

/-- Fixed-width lowercase hexadecimal rendering, as Python
`format(n, "032x")` / `format(n, "016x")` produce for values in range. -/
def toHexFixed (width n : Nat) : String :=
  String.mk ((List.range width).map fun i => hexDigitChar (n / 16 ^ (width - 1 - i) % 16))

/-- The numeric value of one hexadecimal character, if it is one. -/
def hexVal? (ch : Char) : Option Nat :=
  if 48 ≤ ch.toNat ∧ ch.toNat ≤ 57 then some (ch.toNat - 48)
  else if 97 ≤ ch.toNat ∧ ch.toNat ≤ 102 then some (ch.toNat - 87)
  else none

/-- Parse a hexadecimal string; `none` on any non-hex character. -/
def parseHex? (s : String) : Option Nat :=
  s.data.foldl (fun acc ch => acc.bind (fun a => (hexVal? ch).map (fun d => a * 16 + d)))
    (some 0)

/-- Split a character list at every occurrence of `sep`. -/
def splitOnSep (sep : Char) : List Char → List (List Char)
  | [] => [[]]
  | c :: t =>
    match splitOnSep sep t with
    | [] => [[]]
    | h :: r => if c = sep then [] :: h :: r else (c :: h) :: r

/-- A flat string-keyed carrier (HTTP or message headers). -/
abbrev Carrier := List (String × String)

/-- Render a span context in `traceparent` form,
`00-<32 hex>-<16 hex>-<flags>`. -/
def traceparentOf (sc : SpanContext) : String :=
  "00-" ++ toHexFixed 32 sc.traceId ++ "-" ++ toHexFixed 16 sc.spanId ++ "-" ++
    (if sc.sampled then "01" else "00")

/-- The W3C trace-context propagator's inject: writes the `traceparent`
key for a valid span context and does nothing for an invalid one. -/
def tracecontextInject (sc : SpanContext) (c : Carrier) : Carrier :=
  if sc.isValid then dictSet c "traceparent" (traceparentOf sc) else c

/-- Parse a `traceparent` value; `none` on any malformed input
(wrong field count, wrong field width, non-hex digits, or zero ids). -/
def parseTraceparent? (v : String) : Option SpanContext :=
  match (splitOnSep '-' v.data).map String.mk with
  | [ver, tid, sid, flags] =>
    if ver.length = 2 ∧ tid.length = 32 ∧ sid.length = 16 ∧ flags.length = 2 then
      match parseHex? ver, parseHex? tid, parseHex? sid, parseHex? flags with
      | some _, some t, some s, some f =>
        if t ≠ 0 ∧ s ≠ 0 then some ⟨t, s, f % 2 = 1⟩ else none
      | _, _, _, _ => none
    else none
  | _ => none

/-- The W3C trace-context propagator's extract: the remote parent span
context, or `none` when the `traceparent` key is absent or malformed. -/
def tracecontextExtract (c : Carrier) : Option SpanContext :=
  (alookup "traceparent" c).bind parseTraceparent?

/-- Render a baggage map as a `baggage` header value,
comma-separated `key=value` pairs (spec section 6; the percent-encoding
the library applies is the identity on the token-only keys and values
this development uses). -/
def baggageHeaderOf (bag : List (String × String)) : String :=
  String.intercalate "," (bag.map fun kv => kv.1 ++ "=" ++ kv.2)

/-- The W3C baggage propagator's inject: writes the `baggage` key when
the current baggage is non-empty, and does nothing otherwise. -/
def baggageInject (bag : List (String × String)) (c : Carrier) : Carrier :=
  if bag.isEmpty then c else dictSet c "baggage" (baggageHeaderOf bag)

/-- The W3C baggage propagator's extract: parse the `baggage` header
into a key/value map, skipping malformed entries; absence or malformed
content degrade to the empty map, never to an error. -/
def baggageExtract (c : Carrier) : List (String × String) :=
  match alookup "baggage" c with
  | none => []
  | some v =>
    (splitOnSep ',' v.data).filterMap fun entry =>
      match (splitOnSep '=' entry).map String.mk with
      | [k, val] => some (k, val)
      | _ => none

/-- The result of the composite `opentelemetry.propagate.extract`: an
optional remote parent span context plus the baggage entries carried in
the returned context. -/
structure ExtractedContext where
  parent : Option SpanContext
  bag : List (String × String)
deriving DecidableEq, Repr

/-- The composite global extract (trace-context propagator then baggage
propagator); it is total — malformed carriers degrade, they never
raise. -/
def propagateExtract (c : Carrier) : ExtractedContext :=
  { parent := tracecontextExtract c, bag := baggageExtract c }

/-- The sampled flag visible in an extracted context: `false` whenever
there is no remote parent. -/
def ExtractedContext.sampledFlag (e : ExtractedContext) : Bool :=
  match e.parent with
  | some sc => sc.sampled
  | none => false

/-! ## `pika.BasicProperties` and the propagation helpers -/

/-- The fields of `pika.BasicProperties` this layer touches.  Optional
fields default to Python `None`. -/
structure BasicProperties where
  headers : Option Carrier
  correlation_id : Option String
  message_id : Option String
  content_type : Option String
deriving DecidableEq, Repr

/-- A fresh `pika.BasicProperties()` with every field `None`. -/
def BasicProperties.empty : BasicProperties :=
  { headers := none, correlation_id := none, message_id := none, content_type := none }

/-- Embedding of `TracingHelper.extract_context_from_rabbitmq` (source
`context-propagation.py` lines 127-139): `headers = properties.headers
or {}` then the composite extract. -/
def extract_context_from_rabbitmq (properties : BasicProperties) : ExtractedContext :=
  propagateExtract (match properties.headers with
    | none => []
    | some h => h)

/-- Embedding of `HomelabTelemetry.inject_context` (source
`python_instrumentation.py` lines 172-175): the trace-context propagator
then the baggage propagator inject into the carrier.  The ambient
OpenTelemetry state — the current span context and the current baggage —
is passed explicitly as `current` and `bag`. -/
def inject_context (current : SpanContext) (bag : List (String × String))
    (carrier : Carrier) : Carrier :=
  baggageInject bag (tracecontextInject current carrier)

/-- Embedding of the call `baggage.set_baggage(...)` on line 180 of
`python_instrumentation.py`, which passes a single positional argument.
`opentelemetry.baggage.set_baggage(name, value, context=None)` has two
required parameters, so a Python call supplying only one raises
`TypeError` before the function body runs. -/
def setBaggageOneArg (onlyArg : ExtractedContext) : Except PyExc Unit :=
  Except.error
    { ty := "TypeError",
      msg := "set_baggage() missing 1 required positional argument: value" }

/-- Embedding of `HomelabTelemetry.extract_context` (source
`python_instrumentation.py` lines 177-181): the trace-context
propagator's extract, then the malformed one-argument `set_baggage`
call (whose result — were it to return — is discarded), then the
extracted context is returned. -/
def extract_context (carrier : Carrier) : Except PyExc (Option SpanContext) := do
  let ctx := tracecontextExtract carrier
  let _ ← setBaggageOneArg (propagateExtract carrier)
  pure ctx

/-- C6: at the concrete failing input — trace context
`(trace_id 1, span_id 2, sampled)` and baggage `{"k": "v"}` injected
into an empty carrier — `extract_context` raises `TypeError` instead of
returning the extracted context, because line 180 calls `set_baggage`
with one positional argument where `name` and `value` are required (and
its returned context, which alone would carry the baggage, is discarded
anyway).  The underlying codec itself does round-trip: the same carrier
parses back to trace id 1, span id 2, sampled, and baggage
`{"k": "v"}`. -/
theorem extract_context_raises_on_roundtrip :
    extract_context (inject_context ⟨1, 2, true⟩ [("k", "v")] []) =
      Except.error
        { ty := "TypeError",
          msg := "set_baggage() missing 1 required positional argument: value" } ∧
    tracecontextExtract (inject_context ⟨1, 2, true⟩ [("k", "v")] []) =
      some ⟨1, 2, true⟩ ∧
    baggageExtract (inject_context ⟨1, 2, true⟩ [("k", "v")] []) = [("k", "v")] := by
  decide

/-- C7: the consume-path extract and `extract_context_from_rabbitmq`
degrade gracefully on an empty or malformed carrier (no parent,
`sampled = false`, empty baggage, no exception), but the third public
entry point, `HomelabTelemetry.extract_context`, raises `TypeError` even
on the empty carrier, because of the malformed one-argument
`set_baggage` call on line 180. -/
theorem extract_empty_carrier_degrades_but_extract_context_raises :
    propagateExtract [] = { parent := none, bag := [] } ∧
    ExtractedContext.sampledFlag (propagateExtract []) = false ∧
    propagateExtract [("traceparent", "00-zz-zz-zz")] = { parent := none, bag := [] } ∧
    extract_context_from_rabbitmq BasicProperties.empty = { parent := none, bag := [] } ∧
    extract_context [] =
      Except.error
        { ty := "TypeError",
          msg := "set_baggage() missing 1 required positional argument: value" } := by
  decide

/-! ## Messaging interceptor (`RabbitMQInstrumentation`)

Embedding of `instrument_publisher` / `instrument_consumer` from
`rabbitmq_instrumentation.py`.  The delegate publish call and the user
callback are values of type `Except PyExc _` (their outcome on this
invocation); the OpenTelemetry tracer state is passed explicitly as the
span context allocated for the opened span and the ambient baggage. -/

/-- The OpenTelemetry span kinds used by the sources. -/
inductive SpanKind
  | internal
  | client
  | server
  | producer
  | consumer
deriving DecidableEq, Repr

/-- The OpenTelemetry span status codes.  A new span starts `unset`; the
sources only ever set `error` (never `ok`), and a span that ends without
an explicit status keeps `unset`. -/
inductive StatusCode
  | unset
  | ok
  | error
deriving DecidableEq, Repr

/-- The observable record of one span: name, kind, final status, the
exceptions recorded on it, and whether it was ended. -/
structure SpanRec where
  name : String
  kind : SpanKind
  status : StatusCode
  recordedExceptions : List PyExc
  ended : Bool
deriving DecidableEq, Repr

/-- The per-queue instrument values of a `QueueMetrics` holder: counter
totals and histogram observation streams. -/
structure QueueMetrics where
  published : Nat
  consumed : Nat
  retries : Nat
  messageSizeObs : List Nat
  processingTimeObs : List Nat
  queueTimeObs : List Nat
deriving DecidableEq, Repr

/-- A freshly created `QueueMetrics` holder: zero counters, no
observations. -/
def QueueMetrics.init : QueueMetrics :=
  { published := 0, consumed := 0, retries := 0,
    messageSizeObs := [], processingTimeObs := [], queueTimeObs := [] }

/-- The `metrics_by_queue` dictionary, with instrument values. -/
abbrev MetricsMap := List (String × QueueMetrics)

/-- The instrument values recorded for a queue (a queue never observed
has the fresh zeroed values). -/
def metricsFor (m : MetricsMap) (q : String) : QueueMetrics :=
  (alookup q m).getD QueueMetrics.init

/-- The effect of `_get_queue_metrics` on the map: create the entry on
first access, leave it alone otherwise. -/
def ensureQueue (m : MetricsMap) (q : String) : MetricsMap :=
  match alookup q m with
  | some _ => m
  | none => dictSet m q QueueMetrics.init

/-- The effect of one counter `add` / histogram `record` call on the
instruments of queue `q`. -/
def updateQueue (m : MetricsMap) (q : String) (f : QueueMetrics → QueueMetrics) :
    MetricsMap :=
  m.map fun kv => (kv.1, if kv.1 = q then f kv.2 else kv.2)

/-- The composite `opentelemetry.propagate.inject` into a carrier: the
trace-context propagator then the baggage propagator, for the current
span context `current` and ambient baggage `bag`. -/
def propagateInject (current : SpanContext) (bag : List (String × String))
    (c : Carrier) : Carrier :=
  baggageInject bag (tracecontextInject current c)

/-- Python truthiness of an optional string: `None` and `""` are falsy. -/
def pyTruthyStr : Option String → Bool
  | none => false
  | some s => s != ""

/-- The `headers = properties.headers or {}` idiom: `None` (and the
already-empty dict) become the empty dict. -/
def headersOf (p : BasicProperties) : Carrier :=
  match p.headers with
  | none => []
  | some h => h

/-- The metric updates of the publish success path (source lines
127-130): `_get_queue_metrics(routing_key)`, `published_counter.add(1)`,
`message_size.record(len(body))`. -/
def publishBookkeeping (m : MetricsMap) (routing_key : String) (bodyLen : Nat) :
    MetricsMap :=
  let m1 := ensureQueue m routing_key
  let m2 := updateQueue m1 routing_key fun d => { d with published := d.published + 1 }
  updateQueue m2 routing_key fun d => { d with messageSizeObs := d.messageSizeObs ++ [bodyLen] }

/-- The metric updates of the consume path, run before the user callback
(source lines 182-187): `_get_queue_metrics(queue)`,
`consumed_counter.add(1)`, `message_size.record(len(body))`, and
`retry_counter.add(1)` when the redelivery marker key
`"x-first-death-exchange"` is present in the headers. -/
def consumeBookkeeping (m : MetricsMap) (queue : String) (bodyLen : Nat)
    (hasMarker : Bool) : MetricsMap :=
  let m1 := ensureQueue m queue
  let m2 := updateQueue m1 queue fun d => { d with consumed := d.consumed + 1 }
  let m3 := updateQueue m2 queue fun d => { d with messageSizeObs := d.messageSizeObs ++ [bodyLen] }
  if hasMarker then updateQueue m3 queue fun d => { d with retries := d.retries + 1 }
  else m3

/-- Everything `instrumented_publish` leaves behind: the value returned
to (or exception raised at) the caller, the mutated properties object,
the closed PRODUCER span, and the metric state. -/
structure PublishOutcome (α : Type) where
  outcome : Except PyExc α
  props : BasicProperties
  span : SpanRec
  metrics : MetricsMap
deriving Repr

/-- Embedding of `instrumented_publish` (source lines 86-136).
`bookFail` models whether the interceptor's own bookkeeping — the
`_get_queue_metrics` instrument creation and the counter/histogram calls
into the OpenTelemetry SDK on lines 128-130 — raises on this invocation;
`none` is normal operation.  The source places those calls inside the
same `try` block as the delegate publish, so when they raise (at the
first bookkeeping call, leaving the metric map unchanged) the one
`except` clause marks the span ERROR, records the exception and
re-raises it.  `delegate` is `original_basic_publish` applied to this
call's arguments, as a function of the (mutated) properties object. -/
def instrumented_publish (bookFail : Option PyExc) (spanCtx : SpanContext)
    (bag : List (String × String)) (delegate : BasicProperties → Except PyExc α)
    (routing_key : String) (body : List Nat) (properties : Option BasicProperties)
    (m : MetricsMap) : PublishOutcome α :=
  let props0 := properties.getD BasicProperties.empty
  let props1 := match props0.headers with
    | none => { props0 with headers := some [] }
    | some _ => props0
  let span0 : SpanRec :=
    { name := "publish " ++ routing_key, kind := SpanKind.producer,
      status := StatusCode.unset, recordedExceptions := [], ended := false }
  let props2 := { props1 with
    headers := some (propagateInject spanCtx bag (headersOf props1)) }
  let props3 := if pyTruthyStr props2.correlation_id then props2
    else { props2 with correlation_id := some (toHexFixed 16 spanCtx.spanId) }
  let res : Except PyExc α × SpanRec × MetricsMap :=
    match delegate props3 with
    | Except.error e =>
      (Except.error e,
       { span0 with status := StatusCode.error, recordedExceptions := [e],
                    ended := true },
       m)
    | Except.ok r =>
      match bookFail with
      | some e =>
        (Except.error e,
         { span0 with status := StatusCode.error, recordedExceptions := [e],
                      ended := true },
         m)
      | none =>
        (Except.ok r, { span0 with ended := true },
         publishBookkeeping m routing_key body.length)
  { outcome := res.1, props := props3, span := res.2.1, metrics := res.2.2 }

/-- Everything `instrumented_callback` leaves behind: the value returned
to (or exception re-raised at) the broker's delivery loop, the closed
CONSUMER span, the nested `process` span when it was opened, the context
extracted from the headers (the consume span's link), and the metric
state. -/
structure ConsumeOutcome (α : Type) where
  outcome : Except PyExc α
  span : SpanRec
  processSpan : Option SpanRec
  extracted : ExtractedContext
  metrics : MetricsMap
deriving Repr

/-- Embedding of `instrumented_callback` (source lines 154-202).
`callback` is the outcome of the user callback on this delivery;
`bookFail` models whether the interceptor's own bookkeeping (lines
182-187, which run before the callback inside the same `try` block)
raises — `none` is normal operation.  On a bookkeeping failure the
callback is never invoked and the nested `process` span is never
opened. -/
def instrumented_callback (bookFail : Option PyExc) (queue : String)
    (callback : Except PyExc α) (properties : BasicProperties) (body : List Nat)
    (m : MetricsMap) : ConsumeOutcome α :=
  let headers := headersOf properties
  let ctx := propagateExtract headers
  let span0 : SpanRec :=
    { name := "consume " ++ queue, kind := SpanKind.consumer,
      status := StatusCode.unset, recordedExceptions := [], ended := false }
  match bookFail with
  | some e =>
    { outcome := Except.error e,
      span := { span0 with status := StatusCode.error, recordedExceptions := [e],
                           ended := true },
      processSpan := none, extracted := ctx, metrics := m }
  | none =>
    let m4 := consumeBookkeeping m queue body.length
      (alookup "x-first-death-exchange" headers).isSome
    let pspan : SpanRec :=
      { name := "process " ++ queue, kind := SpanKind.internal,
        status := StatusCode.unset, recordedExceptions := [], ended := true }
    match callback with
    | Except.ok r =>
      { outcome := Except.ok r, span := { span0 with ended := true },
        processSpan := some pspan, extracted := ctx, metrics := m4 }
    | Except.error e =>
      { outcome := Except.error e,
        span := { span0 with status := StatusCode.error, recordedExceptions := [e],
                             ended := true },
        processSpan := some pspan, extracted := ctx, metrics := m4 }

/-- Counter and histogram projections for the statements below. -/
def publishedOf (m : MetricsMap) (q : String) : Nat := (metricsFor m q).published

/-- The consumed-counter total for a queue. -/
def consumedOf (m : MetricsMap) (q : String) : Nat := (metricsFor m q).consumed

/-- The retry-counter total for a queue. -/
def retriesOf (m : MetricsMap) (q : String) : Nat := (metricsFor m q).retries

/-- The message-size histogram observation stream for a queue. -/
def sizeObsOf (m : MetricsMap) (q : String) : List Nat := (metricsFor m q).messageSizeObs

theorem alookup_updateQueue (m : MetricsMap) (q : String)
    (f : QueueMetrics → QueueMetrics) :
    alookup q (updateQueue m q f) = (alookup q m).map f := by
  induction m with
  | nil => rfl
  | cons kv t ih =>
    obtain ⟨k, v⟩ := kv
    by_cases h : k = q
    · subst h
      simp [updateQueue, alookup]
    · have ih' : alookup q (List.map
          (fun kv => (kv.1, if kv.1 = q then f kv.2 else kv.2)) t) =
          Option.map f (alookup q t) := by simpa [updateQueue] using ih
      simp [updateQueue, alookup, h, Ne.symm h, ih']

theorem alookup_ensureQueue_self (m : MetricsMap) (q : String) :
    alookup q (ensureQueue m q) = some (metricsFor m q) := by
  unfold ensureQueue metricsFor
  cases h : alookup q m with
  | some d => simp [h]
  | none => simp [h, alookup_dictSet_self]

theorem metricsFor_publishBookkeeping (m : MetricsMap) (q : String) (len : Nat) :
    metricsFor (publishBookkeeping m q len) q =
      { metricsFor m q with
        published := (metricsFor m q).published + 1,
        messageSizeObs := (metricsFor m q).messageSizeObs ++ [len] } := by
  unfold publishBookkeeping
  have h0 := alookup_ensureQueue_self m q
  unfold metricsFor at h0 ⊢
  rw [alookup_updateQueue, alookup_updateQueue, h0]
  rfl

theorem metricsFor_consumeBookkeeping (m : MetricsMap) (q : String) (len : Nat)
    (marker : Bool) :
    metricsFor (consumeBookkeeping m q len marker) q =
      { metricsFor m q with
        consumed := (metricsFor m q).consumed + 1,
        messageSizeObs := (metricsFor m q).messageSizeObs ++ [len],
        retries := (metricsFor m q).retries + (if marker then 1 else 0) } := by
  unfold consumeBookkeeping
  have h0 := alookup_ensureQueue_self m q
  unfold metricsFor at h0 ⊢
  cases marker
  · rw [if_neg (by simp), alookup_updateQueue, alookup_updateQueue, h0]
    rfl
  · rw [if_pos rfl, alookup_updateQueue, alookup_updateQueue, alookup_updateQueue, h0]
    rfl

theorem alookup_propagateInject_other (sc : SpanContext)
    (bag : List (String × String)) (c : Carrier) (k : String)
    (h1 : k ≠ "traceparent") (h2 : k ≠ "baggage") :
    alookup k (propagateInject sc bag c) = alookup k c := by
  unfold propagateInject baggageInject tracecontextInject
  by_cases hb : bag.isEmpty <;> by_cases hv : sc.isValid <;>
    simp [hb, hv, alookup_dictSet_other _ _ _ _ h1, alookup_dictSet_other _ _ _ _ h2]

theorem alookup_propagateInject_traceparent (sc : SpanContext)
    (bag : List (String × String)) (c : Carrier) (h : sc.isValid = true) :
    alookup "traceparent" (propagateInject sc bag c) = some (traceparentOf sc) := by
  have hne : ("traceparent" : String) ≠ "baggage" := by decide
  unfold propagateInject baggageInject tracecontextInject
  by_cases hb : bag.isEmpty <;>
    simp [hb, h, alookup_dictSet_self, alookup_dictSet_other _ _ _ _ hne]

/-- C1: transparency of the messaging interceptor.  A publish whose
delegate raises `e` re-raises exactly `e` after marking the PRODUCER
span ERROR with `e` recorded on it; a publish whose delegate succeeds
returns the delegate's result unchanged.  A consume whose callback
raises `e` re-raises exactly `e` after marking the CONSUMER span ERROR
with `e` recorded, and the consumed counter is still incremented exactly
once; a consume whose callback succeeds returns its result unchanged and
also increments the consumed counter exactly once.  In no case does the
interceptor change the success/failure outcome of the wrapped
operation. -/
theorem interceptor_transparency {α : Type} (sc : SpanContext)
    (bag : List (String × String)) (rk : String) (body : List Nat)
    (props0 : Option BasicProperties) (m : MetricsMap) (e : PyExc) (r : α)
    (q : String) (cprops : BasicProperties) (cbody : List Nat) :
    (instrumented_publish none sc bag (fun _ => (Except.error e : Except PyExc α)) rk body props0 m).outcome
        = Except.error e ∧
    (instrumented_publish none sc bag (fun _ => (Except.error e : Except PyExc α)) rk body props0 m).span.status
        = StatusCode.error ∧
    (instrumented_publish none sc bag (fun _ => (Except.error e : Except PyExc α)) rk body props0 m).span.recordedExceptions
        = [e] ∧
    (instrumented_publish none sc bag (fun _ => (Except.error e : Except PyExc α)) rk body props0 m).span.ended
        = true ∧
    (instrumented_publish none sc bag (fun _ => Except.ok r) rk body props0 m).outcome
        = Except.ok r ∧
    (instrumented_callback none q (Except.error e : Except PyExc α) cprops cbody m).outcome
        = Except.error e ∧
    (instrumented_callback none q (Except.error e : Except PyExc α) cprops cbody m).span.status
        = StatusCode.error ∧
    (instrumented_callback none q (Except.error e : Except PyExc α) cprops cbody m).span.recordedExceptions
        = [e] ∧
    (instrumented_callback none q (Except.error e : Except PyExc α) cprops cbody m).span.ended
        = true ∧
    consumedOf (instrumented_callback none q (Except.error e : Except PyExc α) cprops cbody m).metrics q
        = consumedOf m q + 1 ∧
    (instrumented_callback none q (Except.ok r) cprops cbody m).outcome
        = Except.ok r ∧
    consumedOf (instrumented_callback none q (Except.ok r) cprops cbody m).metrics q
        = consumedOf m q + 1 := by
  unfold instrumented_publish instrumented_callback
  simp [consumedOf, metricsFor_consumeBookkeeping]

/-- C3 counterexample: a publish in which the delegate succeeds with
result `7` but the interceptor's own bookkeeping raises does NOT return
the wrapped operation's outcome to the caller — the bookkeeping
exception is raised instead of being logged, because lines 128-130 sit
inside the same `try` block as the delegate and the `except` clause
re-raises. -/
theorem bookkeeping_failure_masks_success :
    (instrumented_publish (some ⟨"RuntimeError", "meter add failed"⟩) ⟨1, 2, true⟩ []
      (fun _ => Except.ok 7) "orders" [0] none []).outcome ≠ Except.ok 7 := by
  decide

/-- C3 as the code actually behaves: when the interceptor's own
bookkeeping raises `e` on the publish path after a successful delegate,
the caller receives `e` (the wrapped operation's result is masked) and
the span is closed ERROR with `e` recorded; on the consume path the
bookkeeping runs before the callback, so its failure is likewise raised
and the wrapped callback is never invoked (no `process` span is
opened).  Nothing is logged-and-swallowed. -/
theorem bookkeeping_failure_raised {α : Type} (sc : SpanContext)
    (bag : List (String × String)) (rk : String) (body : List Nat)
    (props0 : Option BasicProperties) (m : MetricsMap) (e : PyExc) (r : α)
    (q : String) (cb : Except PyExc α) (cprops : BasicProperties)
    (cbody : List Nat) :
    (instrumented_publish (some e) sc bag (fun _ => Except.ok r) rk body props0 m).outcome
        = Except.error e ∧
    (instrumented_publish (some e) sc bag (fun _ => Except.ok r) rk body props0 m).span.status
        = StatusCode.error ∧
    (instrumented_publish (some e) sc bag (fun _ => Except.ok r) rk body props0 m).span.recordedExceptions
        = [e] ∧
    (instrumented_publish (some e) sc bag (fun _ => Except.ok r) rk body props0 m).metrics
        = m ∧
    (instrumented_callback (some e) q cb cprops cbody m).outcome = Except.error e ∧
    (instrumented_callback (some e) q cb cprops cbody m).processSpan = none := by
  unfold instrumented_publish instrumented_callback
  simp

/-- C4 counterexample: at the concrete scenario input — routing key
`"orders"`, a 120-byte body, successful delegate, fresh metric state —
the published counter is 1, the size histogram observed 120, and the
span `publish orders` is ended, but its status is UNSET, not OK: the
success path never calls `set_status`, so the claim's "closed with
status OK" is false. -/
theorem publish_orders_span_not_ok :
    publishedOf (instrumented_publish none ⟨1, 2, true⟩ []
      (fun _ => Except.ok 0) "orders" (List.replicate 120 0) none []).metrics "orders" = 1 ∧
    sizeObsOf (instrumented_publish none ⟨1, 2, true⟩ []
      (fun _ => Except.ok 0) "orders" (List.replicate 120 0) none []).metrics "orders" = [120] ∧
    (instrumented_publish none ⟨1, 2, true⟩ []
      (fun _ => Except.ok 0) "orders" (List.replicate 120 0) none []).span.name = "publish orders" ∧
    (instrumented_publish none ⟨1, 2, true⟩ []
      (fun _ => Except.ok 0) "orders" (List.replicate 120 0) none []).span.ended = true ∧
    (instrumented_publish none ⟨1, 2, true⟩ []
      (fun _ => Except.ok 0) "orders" (List.replicate 120 0) none []).span.status ≠ StatusCode.ok := by
  decide

/-- C4 as the code actually behaves: for every publish whose delegate
succeeds, the interceptor opens a PRODUCER span named
`publish <routing_key>`, increments the published counter for the
routing key by exactly 1, records the message-size histogram with the
body length, and ends the span without an error — but with status left
UNSET (the OpenTelemetry default), not explicitly OK. -/
theorem publish_success_metrics_and_span {α : Type} (sc : SpanContext)
    (bag : List (String × String)) (rk : String) (body : List Nat)
    (props0 : Option BasicProperties) (m : MetricsMap) (r : α) :
    publishedOf (instrumented_publish none sc bag (fun _ => Except.ok r) rk body props0 m).metrics rk
        = publishedOf m rk + 1 ∧
    sizeObsOf (instrumented_publish none sc bag (fun _ => Except.ok r) rk body props0 m).metrics rk
        = sizeObsOf m rk ++ [body.length] ∧
    (instrumented_publish none sc bag (fun _ => Except.ok r) rk body props0 m).span.name
        = "publish " ++ rk ∧
    (instrumented_publish none sc bag (fun _ => Except.ok r) rk body props0 m).span.kind
        = SpanKind.producer ∧
    (instrumented_publish none sc bag (fun _ => Except.ok r) rk body props0 m).span.ended
        = true ∧
    (instrumented_publish none sc bag (fun _ => Except.ok r) rk body props0 m).span.status
        = StatusCode.unset := by
  unfold instrumented_publish
  simp [publishedOf, sizeObsOf, metricsFor_publishBookkeeping]

/-- C5: for every consumed delivery, the retry counter for the queue is
incremented by exactly 1 when the headers contain the redelivery marker
key `"x-first-death-exchange"`, and is unchanged when they do not —
independently of the callback's outcome. -/
theorem retry_counter_marker {α : Type} (q : String) (cb : Except PyExc α)
    (props : BasicProperties) (body : List Nat) (m : MetricsMap) :
    retriesOf (instrumented_callback none q cb props body m).metrics q =
      retriesOf m q +
        (if (alookup "x-first-death-exchange" (headersOf props)).isSome then 1
         else 0) := by
  unfold instrumented_callback
  cases cb <;> simp [retriesOf, metricsFor_consumeBookkeeping]

theorem instrumented_publish_props {α : Type} (bf : Option PyExc) (sc : SpanContext)
    (bag : List (String × String)) (d : BasicProperties → Except PyExc α)
    (rk : String) (body : List Nat) (props0 : Option BasicProperties)
    (m : MetricsMap) :
    (instrumented_publish bf sc bag d rk body props0 m).props =
      (let p0 := props0.getD BasicProperties.empty
       let p1 := match p0.headers with
         | none => { p0 with headers := some [] }
         | some _ => p0
       let p2 : BasicProperties :=
         { p1 with headers := some (propagateInject sc bag (headersOf p1)) }
       if pyTruthyStr p2.correlation_id then p2
       else { p2 with correlation_id := some (toHexFixed 16 sc.spanId) }) := by
  rfl

/-- C10: the frame property of the publish path on the outgoing message
properties.  The wrapper ensures a headers map exists; every header key
other than the injected propagation keys (`traceparent`, `baggage`)
keeps its original value; when the span context is valid the
`traceparent` key is written; `correlation_id` is assigned the PRODUCER
span's span id as 16 hex digits exactly when none was present (Python
truthiness: `None` or the empty string), a pre-existing one being left
unchanged; and the remaining fields of the caller's properties object
(`message_id`, `content_type`) are untouched. -/
theorem publish_frame {α : Type} (bf : Option PyExc) (sc : SpanContext)
    (bag : List (String × String)) (d : BasicProperties → Except PyExc α)
    (rk : String) (body : List Nat) (props0 : Option BasicProperties)
    (m : MetricsMap) :
    (instrumented_publish bf sc bag d rk body props0 m).props.headers.isSome = true ∧
    (∀ k : String, k ≠ "traceparent" → k ≠ "baggage" →
      alookup k ((instrumented_publish bf sc bag d rk body props0 m).props.headers.getD []) =
        alookup k ((props0.getD BasicProperties.empty).headers.getD [])) ∧
    (sc.isValid = true →
      alookup "traceparent"
          ((instrumented_publish bf sc bag d rk body props0 m).props.headers.getD []) =
        some (traceparentOf sc)) ∧
    (instrumented_publish bf sc bag d rk body props0 m).props.correlation_id =
      (if pyTruthyStr (props0.getD BasicProperties.empty).correlation_id then
        (props0.getD BasicProperties.empty).correlation_id
       else some (toHexFixed 16 sc.spanId)) ∧
    (instrumented_publish bf sc bag d rk body props0 m).props.message_id =
      (props0.getD BasicProperties.empty).message_id ∧
    (instrumented_publish bf sc bag d rk body props0 m).props.content_type =
      (props0.getD BasicProperties.empty).content_type := by
  have hp := instrumented_publish_props bf sc bag d rk body props0 m
  simp only [hp]
  rcases hH : (props0.getD BasicProperties.empty).headers with _ | hs <;>
    by_cases hc : pyTruthyStr (props0.getD BasicProperties.empty).correlation_id <;>
    simp [hH, hc, headersOf] <;>
    exact ⟨fun k h1 h2 => alookup_propagateInject_other sc bag _ k h1 h2,
      fun hv => alookup_propagateInject_traceparent sc bag _ hv⟩

/-- C10 witness at a concrete input: a pre-existing unrelated header
survives injection, the stale `traceparent` is overwritten with the
span's, the pre-existing correlation id `"abc"` is kept, and
`message_id` is untouched. -/
theorem publish_frame_witness :
    alookup "my-header"
        ((instrumented_publish none ⟨1, 2, true⟩ [("bk", "bv")]
          (fun _ => (Except.ok 5 : Except PyExc Nat)) "orders" [0, 1]
          (some { headers := some [("my-header", "keep"), ("traceparent", "stale")],
                  correlation_id := some "abc", message_id := some "mid",
                  content_type := some "json" }) []).props.headers.getD []) = some "keep" ∧
    alookup "traceparent"
        ((instrumented_publish none ⟨1, 2, true⟩ [("bk", "bv")]
          (fun _ => (Except.ok 5 : Except PyExc Nat)) "orders" [0, 1]
          (some { headers := some [("my-header", "keep"), ("traceparent", "stale")],
                  correlation_id := some "abc", message_id := some "mid",
                  content_type := some "json" }) []).props.headers.getD []) =
      some (traceparentOf ⟨1, 2, true⟩) ∧
    (instrumented_publish none ⟨1, 2, true⟩ [("bk", "bv")]
        (fun _ => (Except.ok 5 : Except PyExc Nat)) "orders" [0, 1]
        (some { headers := some [("my-header", "keep"), ("traceparent", "stale")],
                correlation_id := some "abc", message_id := some "mid",
                content_type := some "json" }) []).props.correlation_id = some "abc" ∧
    (instrumented_publish none ⟨1, 2, true⟩ [("bk", "bv")]
        (fun _ => (Except.ok 5 : Except PyExc Nat)) "orders" [0, 1]
        (some { headers := some [("my-header", "keep"), ("traceparent", "stale")],
                correlation_id := some "abc", message_id := some "mid",
                content_type := some "json" }) []).props.message_id = some "mid" := by
  have h := publish_frame none ⟨1, 2, true⟩ [("bk", "bv")]
    (fun _ => (Except.ok 5 : Except PyExc Nat)) "orders" [0, 1]
    (some { headers := some [("my-header", "keep"), ("traceparent", "stale")],
            correlation_id := some "abc", message_id := some "mid",
            content_type := some "json" }) []
  refine ⟨(h.2.1 "my-header" (by decide) (by decide)).trans (by decide),
    h.2.2.1 (by decide), (h.2.2.2.1).trans (by decide),
    (h.2.2.2.2.1).trans (by decide)⟩

/-! ## Metric registry identity (`_get_queue_metrics`)

For claim C2 the object identity of the created `QueueMetrics` holders
matters, not their instrument values: each evaluation of the
`QueueMetrics(...)` constructor expression on source lines 46-74 gets a
fresh identity, so `nextId` counts the holders constructed over the
process lifetime and `table` maps a queue name to the identity of the
holder currently stored for it. -/

/-- The `metrics_by_queue` dict (name to holder identity) together with
the number of holders constructed so far. -/
structure RegistryState where
  table : List (String × Nat)
  nextId : Nat
deriving DecidableEq, Repr

/-- Embedding of `_get_queue_metrics` (source lines 43-75) run to
completion without interleaving: the `not in` membership check, the
store of a freshly constructed holder when absent, then the
`return self.metrics_by_queue[queue_name]` re-read.  Returns the
identity handed to the caller and the new registry state. -/
def _get_queue_metrics (st : RegistryState) (q : String) : Nat × RegistryState :=
  let st' := if (alookup q st.table).isSome then st
    else { table := dictSet st.table q st.nextId, nextId := st.nextId + 1 }
  ((alookup q st'.table).getD 0, st')

/-- The per-thread state of one in-flight `_get_queue_metrics q` call:
its program counter, what its membership check saw, and its eventual
return value (the identity of the holder it hands back). -/
structure ThreadSt where
  pc : Nat
  sawAbsent : Bool
  ret : Option Nat
deriving DecidableEq, Repr

/-- A thread that has not started its call yet. -/
def threadInit : ThreadSt := { pc := 0, sawAbsent := false, ret := none }

/-- One atomic step of a thread executing `_get_queue_metrics q`.  Under
the GIL each individual dict operation is atomic, but between the
membership check (line 45) and the store (line 46, whose right-hand
side first runs the six `meter.create_*` calls) the interpreter may
switch threads, and the `return self.metrics_by_queue[queue_name]`
re-read (line 75) is a third separate dict operation.  pc 0: the
`not in` check; pc 1: the construction-and-store, skipped when the
check saw the key; pc 2: the return re-read; pc 3: done. -/
def threadStep (q : String) (g : RegistryState) (t : ThreadSt) :
    RegistryState × ThreadSt :=
  match t.pc with
  | 0 => (g, { t with sawAbsent := (alookup q g.table).isNone, pc := 1 })
  | 1 =>
    if t.sawAbsent then
      ({ table := dictSet g.table q g.nextId, nextId := g.nextId + 1 },
       { t with pc := 2 })
    else (g, { t with pc := 2 })
  | 2 => (g, { t with ret := alookup q g.table, pc := 3 })
  | _ => (g, t)

/-- Two threads calling `_get_queue_metrics` for the same name against
the shared registry. -/
structure RaceState where
  g : RegistryState
  t1 : ThreadSt
  t2 : ThreadSt
deriving DecidableEq, Repr

/-- Fresh registry, both calls not yet started (concurrent first
access). -/
def raceInit : RaceState :=
  { g := { table := [], nextId := 0 }, t1 := threadInit, t2 := threadInit }

/-- Run one atomic step of the chosen thread (`true` = thread 1). -/
def raceStep (q : String) (s : RaceState) (who : Bool) : RaceState :=
  if who then
    let r := threadStep q s.g s.t1
    { s with g := r.1, t1 := r.2 }
  else
    let r := threadStep q s.g s.t2
    { s with g := r.1, t2 := r.2 }

/-- Run a whole interleaving, given as the list of thread choices. -/
def runSchedule (q : String) (sched : List Bool) (s : RaceState) : RaceState :=
  sched.foldl (raceStep q) s

/-- C2 counterexample: under the interleaving in which thread 1 runs its
membership check, then thread 2 runs its entire call, then thread 1
resumes, TWO `QueueMetrics` holders are constructed for the single name
`"queueA"` (`nextId = 2`) and the two callers hold different instances.
The source takes no lock around the check-then-store of
`_get_queue_metrics`, so concurrent first access duplicates the
instrument set, contradicting the claim's "never creates a duplicate,
including under concurrent first access". -/
theorem get_queue_metrics_race_duplicates :
    (runSchedule "queueA" [true, false, false, false, true, true] raceInit).g.nextId = 2 ∧
    (runSchedule "queueA" [true, false, false, false, true, true] raceInit).t1.ret ≠
      (runSchedule "queueA" [true, false, false, false, true, true] raceInit).t2.ret := by
  decide

/-- C2 as the code actually behaves: without interleaving the registry
is idempotent — a second call for the same name returns the identity the
first call stored and leaves the registry unchanged, and one call
constructs at most one holder.  The uniqueness guarantee holds only
sequentially; it is not protected against concurrent first access. -/
theorem get_queue_metrics_sequential_idempotent (st : RegistryState) (q : String) :
    (_get_queue_metrics (_get_queue_metrics st q).2 q).1 = (_get_queue_metrics st q).1 ∧
    (_get_queue_metrics (_get_queue_metrics st q).2 q).2 = (_get_queue_metrics st q).2 ∧
    (_get_queue_metrics st q).2.nextId ≤ st.nextId + 1 := by
  unfold _get_queue_metrics
  cases h : alookup q st.table with
  | some i => simp [h, Nat.le_succ]
  | none => simp [h, alookup_dictSet_self]

end HomelabObs
